import Mathlib

/-!
Shallow embedding of `src/launch/dynamo-run/src/opt.rs`: the mode-resolution
layer of the dynamo-run launcher.  Strings are embedded as lists of
characters (`Str`); Rust's `str::starts_with` and `str::strip_prefix` are
embedded below as `startsWithTok` and `stripPrefixOpt`.  A `TryFrom`
implementation that can panic (the `.unwrap()` sites) is embedded as a
function into `Option (Except Str _)`, where `none` marks a panic and
`Except.error` carries the `anyhow` error message.
-/

/-- Strings of the embedded program. -/
abbrev Str := List Char

/-- Embedding of Rust `str::starts_with` for our token strings:
`startsWithTok s pre` is true iff `pre` is a prefix of `s`. -/
def startsWithTok : Str → Str → Bool
  | _, [] => true
  | [], _ :: _ => false
  | a :: s, b :: p => a == b && startsWithTok s p

/-- Embedding of Rust `str::strip_prefix`: `some` of the remainder when the
prefix matches, `none` otherwise. -/
def stripPrefixOpt (s pre : Str) : Option Str :=
  if startsWithTok s pre then some (s.drop pre.length) else none

/-- Modelled from the spec: `dynamo_runtime::protocols::ENDPOINT_SCHEME`, the
shared endpoint scheme token, is defined outside `src/`; the spec's concrete
examples use the scheme `dyn://` (`Parse("dyn://ns.comp.ep")`). -/
def ENDPOINT_SCHEME : Str := "dyn://".toList

/-- Embedding of the ` BATCH_PREFIX ` constant of `opt.rs`: the literal
`"batch:"`. -/
def BATCH_TOKEN : Str := "batch:".toList

/-- Modelled from the spec: `crate::PYTHON_STR_SCHEME`, the scripted-backend
scheme token, is defined outside `src/`; the spec fixes only that it is a
fixed scheme-prefix string followed by a filesystem path, and that the
scripted-backend variant renders to a fixed diagnostic literal (which the
source gives as `"pystr"`); we take the scheme consistent with that literal. -/
def PYTHON_STR_SCHEME : Str := "pystr:".toList

/-- The `Input` enum of `opt.rs` (the Source Selector's mode type). -/
inductive Input where
  /-- Run an OpenAI compatible HTTP server -/
  | Http
  /-- Single prompt on stdin -/
  | Stdin
  /-- Interactive chat -/
  | Text
  /-- Pull requests from a namespace/component/endpoint path. -/
  | Endpoint (path : Str)
  /-- Batch mode (payload is the `PathBuf` built from the remainder). -/
  | Batch (path : Str)
deriving DecidableEq

deriving instance DecidableEq for Except

/-- The error message `anyhow::anyhow!("Invalid in= option '{e}'")`. -/
def invalidInMsg (e : Str) : Str :=
  "Invalid in= option '".toList ++ e ++ "'".toList

/-- Embedding of `TryFrom<&str> for Input` from `opt.rs`, branch for branch
in match order; a `none` result would mark a reachable panic of the
`.unwrap()` call. -/
def Input.tryFrom (s : Str) : Option (Except Str Input) :=
  if s = "http".toList then some (Except.ok Input.Http)
  else if s = "text".toList then some (Except.ok Input.Text)
  else if s = "stdin".toList then some (Except.ok Input.Stdin)
  else if startsWithTok s ENDPOINT_SCHEME then
    some (Except.ok (Input.Endpoint s))
  else if startsWithTok s BATCH_TOKEN then
    match stripPrefixOpt s BATCH_TOKEN with
    | some path => some (Except.ok (Input.Batch path))
    | none => none
  else some (Except.error (invalidInMsg s))

/-- Embedding of `impl fmt::Display for Input` from `opt.rs` (the Render
direction); `PathBuf::display` of a `Batch` payload is its stored string. -/
def Input.render : Input → Str
  | Input.Http => "http".toList
  | Input.Text => "text".toList
  | Input.Stdin => "stdin".toList
  | Input.Endpoint path => path
  | Input.Batch path => path

/-- Embedding of `impl Default for Input` from `opt.rs`, with the
terminal-attachment signal `std::io::stdin().is_terminal()` passed in as a
boolean. -/
def Input.defaultMode (stdinIsTerminal : Bool) : Input :=
  if stdinIsTerminal then Input.Text else Input.Stdin

/-- The capability set of a build: which optional cargo features of
`dynamo-run` are compiled in.  `Output`'s gated variants and match arms are
guarded by these flags (`#[cfg(feature = "mistralrs")]` etc.); `sglang` and
`vllm` are unconditional. -/
structure Features where
  mistralrs : Bool
  llamacpp : Bool
  python : Bool
deriving DecidableEq

/-- The `Output` enum of `opt.rs` (the Sink Selector's mode type); the
feature-gated variants are present as constructors, with the gating expressed
by the `Features` argument of the operations. -/
inductive Output where
  /-- Accept un-preprocessed requests, echo the prompt back as the response -/
  | EchoFull
  /-- Accept preprocessed requests, echo the tokens back as the response -/
  | EchoCore
  /-- Publish requests to a namespace/component/endpoint path. -/
  | Endpoint (path : Str)
  /-- Run inference on a model in a GGUF file using mistralrs w/ candle
  (feature `mistralrs`) -/
  | MistralRs
  /-- Run inference using llama.cpp (feature `llamacpp`) -/
  | LlamaCpp
  /-- Run inference using sglang -/
  | SgLang
  /-- Start vllm in a sub-process connecting via nats -/
  | Vllm
  /-- Run inference using a user supplied python file (feature `python`) -/
  | PythonStr (path : Str)
deriving DecidableEq

/-- The error message `anyhow::anyhow!("Invalid out= option '{e}'")`. -/
def invalidOutMsg (e : Str) : Str :=
  "Invalid out= option '".toList ++ e ++ "'".toList

/-- Embedding of `TryFrom<&str> for Output` from `opt.rs`, branch for branch
in match order; `cfg`-gated arms participate only when their feature is
enabled; a `none` result would mark a reachable panic of an `.unwrap()`
call. -/
def Output.tryFrom (cfg : Features) (s : Str) : Option (Except Str Output) :=
  if cfg.mistralrs = true ∧ s = "mistralrs".toList then
    some (Except.ok Output.MistralRs)
  else if cfg.llamacpp = true ∧ (s = "llamacpp".toList ∨ s = "llama_cpp".toList) then
    some (Except.ok Output.LlamaCpp)
  else if s = "sglang".toList then some (Except.ok Output.SgLang)
  else if s = "vllm".toList then some (Except.ok Output.Vllm)
  else if s = "echo_full".toList then some (Except.ok Output.EchoFull)
  else if s = "echo_core".toList then some (Except.ok Output.EchoCore)
  else if startsWithTok s ENDPOINT_SCHEME then
    match stripPrefixOpt s ENDPOINT_SCHEME with
    | some path => some (Except.ok (Output.Endpoint path))
    | none => none
  else if cfg.python = true ∧ startsWithTok s PYTHON_STR_SCHEME then
    match stripPrefixOpt s PYTHON_STR_SCHEME with
    | some path => some (Except.ok (Output.PythonStr path))
    | none => none
  else some (Except.error (invalidOutMsg s))

/-- Embedding of `impl fmt::Display for Output` from `opt.rs` (the Render
direction). -/
def Output.render : Output → Str
  | Output.MistralRs => "mistralrs".toList
  | Output.LlamaCpp => "llamacpp".toList
  | Output.SgLang => "sglang".toList
  | Output.Vllm => "vllm".toList
  | Output.EchoFull => "echo_full".toList
  | Output.EchoCore => "echo_core".toList
  | Output.Endpoint path => path
  | Output.PythonStr _ => "pystr".toList

/-- Embedding of `impl Default for Output` from `opt.rs`: start from `Vllm`,
overwrite with `MistralRs` when the `mistralrs` feature is compiled in. -/
def Output.defaultMode (cfg : Features) : Output :=
  let out := Output.Vllm
  let out := if cfg.mistralrs then Output.MistralRs else out
  out

/-- Embedding of `Output::available_engines` from `opt.rs`: echo modes
first, then each compiled-in backend in declared order, then the
scripted-backend example. -/
def Output.available_engines (cfg : Features) : List Str :=
  let out := ["echo_core".toList, "echo_full".toList]
  let out := if cfg.mistralrs then out ++ [Output.render Output.MistralRs] else out
  let out := if cfg.llamacpp then out ++ [Output.render Output.LlamaCpp] else out
  let out := out ++ [Output.render Output.SgLang, Output.render Output.Vllm]
  let out := if cfg.python then
    out ++ [Output.render (Output.PythonStr ("file.py".toList))] else out
  out

/-- A source token round-trips when parsing succeeds and rendering the
parsed mode gives the token back. -/
def srcRoundTrip (t : Str) : Prop :=
  (Input.tryFrom t).map (Except.map Input.render) = some (Except.ok t)

/-- A sink token round-trips (under capability set `cfg`) when parsing
succeeds and rendering the parsed mode gives the token back. -/
def sinkRoundTrip (cfg : Features) (t : Str) : Prop :=
  (Output.tryFrom cfg t).map (Except.map Output.render) = some (Except.ok t)

instance (t : Str) : Decidable (srcRoundTrip t) :=
  inferInstanceAs
    (Decidable ((Input.tryFrom t).map (Except.map Input.render) = some (Except.ok t)))

instance (cfg : Features) (t : Str) : Decidable (sinkRoundTrip cfg t) :=
  inferInstanceAs
    (Decidable ((Output.tryFrom cfg t).map (Except.map Output.render) = some (Except.ok t)))

/-- Characterisation of the prefix test: `startsWithTok s pre` holds exactly
when `s` is `pre` followed by some remainder. -/
theorem startsWithTok_iff (s pre : Str) :
    startsWithTok s pre = true ↔ ∃ t, s = pre ++ t := by
  induction pre generalizing s with
  | nil => cases s <;> simp [startsWithTok]
  | cons b p ih =>
    cases s with
    | nil => simp [startsWithTok]
    | cons a s' =>
      simp only [startsWithTok, Bool.and_eq_true, beq_iff_eq, ih, List.cons_append,
        List.cons.injEq]
      aesop

/-- On an endpoint-scheme-prefixed token, the Source Selector parse returns
the token verbatim as an `Endpoint` payload. -/
theorem input_tryFrom_scheme (s : Str) (h : startsWithTok s ENDPOINT_SCHEME = true) :
    Input.tryFrom s = some (Except.ok (Input.Endpoint s)) := by
  obtain ⟨t, rfl⟩ := (startsWithTok_iff s ENDPOINT_SCHEME).mp h
  simp [Input.tryFrom, ENDPOINT_SCHEME, String.toList, startsWithTok]

/-- On an endpoint-scheme-prefixed token, the Sink Selector parse strips the
scheme and stores the remainder as the `Endpoint` payload. -/
theorem output_tryFrom_scheme (cfg : Features) (s : Str)
    (h : startsWithTok s ENDPOINT_SCHEME = true) :
    Output.tryFrom cfg s
      = some (Except.ok (Output.Endpoint (s.drop (List.length ENDPOINT_SCHEME)))) := by
  obtain ⟨t, rfl⟩ := (startsWithTok_iff s ENDPOINT_SCHEME).mp h
  simp [Output.tryFrom, stripPrefixOpt, ENDPOINT_SCHEME, PYTHON_STR_SCHEME,
    String.toList, startsWithTok]

/-- Inversion: the only way the Source Selector parse produces an
`Endpoint` is the scheme branch, which stores the token itself. -/
theorem input_tryFrom_endpoint_inv (s a : Str)
    (h : Input.tryFrom s = some (Except.ok (Input.Endpoint a))) :
    a = s ∧ startsWithTok s ENDPOINT_SCHEME = true := by
  unfold Input.tryFrom at h
  split_ifs at h with h1 h2 h3 h4 h5
  · simp at h
  · simp at h
  · simp at h
  · simp at h
    exact ⟨h.symm, h4⟩
  · simp only [stripPrefixOpt] at h
    rw [if_pos h5] at h
    simp at h
  · simp at h

/-- Inversion: the only way the Sink Selector parse produces an `Endpoint`
is the scheme branch, which stores the token with the scheme dropped. -/
theorem output_tryFrom_endpoint_inv (cfg : Features) (s a : Str)
    (h : Output.tryFrom cfg s = some (Except.ok (Output.Endpoint a))) :
    a = s.drop (List.length ENDPOINT_SCHEME) ∧
      startsWithTok s ENDPOINT_SCHEME = true := by
  unfold Output.tryFrom at h
  split_ifs at h with h1 h2 h3 h4 h5 h6 h7 h8
  · simp at h
  · simp at h
  · simp at h
  · simp at h
  · simp at h
  · simp at h
  · simp only [stripPrefixOpt] at h
    rw [if_pos h7] at h
    simp at h
    exact ⟨h.symm, h7⟩
  · simp only [stripPrefixOpt] at h
    rw [if_pos h8.2] at h
    simp at h
  · simp at h

/-- On a token matching no literal and no prefix of the source grammar, the
Source Selector parse falls through to the `Invalid in=` error. -/
theorem input_tryFrom_invalid (s : Str)
    (h1 : s ≠ "http".toList) (h2 : s ≠ "text".toList) (h3 : s ≠ "stdin".toList)
    (h4 : startsWithTok s ENDPOINT_SCHEME = false)
    (h5 : startsWithTok s BATCH_TOKEN = false) :
    Input.tryFrom s = some (Except.error (invalidInMsg s)) := by
  simp only [Input.tryFrom]
  rw [if_neg h1, if_neg h2, if_neg h3]
  simp [h4, h5]

/-- On a token matching no enabled literal and no prefix of the sink
grammar, the Sink Selector parse falls through to the `Invalid out=`
error. -/
theorem output_tryFrom_invalid (cfg : Features) (s : Str)
    (h1 : ¬(cfg.mistralrs = true ∧ s = "mistralrs".toList))
    (h2 : ¬(cfg.llamacpp = true ∧ (s = "llamacpp".toList ∨ s = "llama_cpp".toList)))
    (h3 : s ≠ "sglang".toList) (h4 : s ≠ "vllm".toList)
    (h5 : s ≠ "echo_full".toList) (h6 : s ≠ "echo_core".toList)
    (h7 : startsWithTok s ENDPOINT_SCHEME = false)
    (h8 : ¬(cfg.python = true ∧ startsWithTok s PYTHON_STR_SCHEME = true)) :
    Output.tryFrom cfg s = some (Except.error (invalidOutMsg s)) := by
  simp only [Output.tryFrom]
  rw [if_neg h1, if_neg h2, if_neg h3, if_neg h4, if_neg h5, if_neg h6]
  rw [if_neg ?hc, if_neg h8]
  case hc => simp [h7]

example : Input.tryFrom ("http".toList) = some (Except.ok Input.Http) := by decide
example : Input.tryFrom ("batch:/tmp/p.txt".toList)
    = some (Except.ok (Input.Batch ("/tmp/p.txt".toList))) := by decide
example : Input.tryFrom ("dyn://ns.comp.ep".toList)
    = some (Except.ok (Input.Endpoint ("dyn://ns.comp.ep".toList))) := by decide
example : Input.tryFrom ("bogus".toList)
    = some (Except.error (invalidInMsg ("bogus".toList))) := by decide
example : Output.tryFrom ⟨true, true, true⟩ ("dyn://ns.comp.ep".toList)
    = some (Except.ok (Output.Endpoint ("ns.comp.ep".toList))) := by decide
example : Output.tryFrom ⟨false, false, false⟩ ("mistralrs".toList)
    = some (Except.error (invalidOutMsg ("mistralrs".toList))) := by decide
example : Output.tryFrom ⟨true, true, true⟩ ("pystr:gen.py".toList)
    = some (Except.ok (Output.PythonStr ("gen.py".toList))) := by decide
example : Output.available_engines ⟨true, true, true⟩
    = ["echo_core".toList, "echo_full".toList, "mistralrs".toList,
       "llamacpp".toList, "sglang".toList, "vllm".toList, "pystr".toList] := by decide

/-- C1 fails as stated: with the `llamacpp` feature enabled, `"llama_cpp"`
is a supported literal token that Parse maps to the payload-free `LlaMACpp`
variant, yet rendering that variant gives `"llamacpp"`, so
`Render(Parse("llama_cpp")) ≠ "llama_cpp"`. -/
theorem claim_C1_counterexample :
    Output.tryFrom ⟨false, true, false⟩ ("llama_cpp".toList)
      = some (Except.ok Output.LlamaCpp) ∧
    ¬ sinkRoundTrip ⟨false, true, false⟩ ("llama_cpp".toList) := by
  decide

/-- C1 (amended): `Render(Parse(token)) == token` for the Source tokens
`"http"`, `"text"`, `"stdin"` and for the Sink tokens of the echo modes,
the always-enabled backends, and the canonical literal of each enabled
feature-gated backend — every payload-free literal except the alias
`"llama_cpp"`, which parses to the `LlaMACpp` variant but renders as
`"llamacpp"`. -/
theorem claim_C1_theorem (cfg : Features) :
    srcRoundTrip ("http".toList) ∧ srcRoundTrip ("text".toList) ∧
    srcRoundTrip ("stdin".toList) ∧
    sinkRoundTrip cfg ("echo_full".toList) ∧ sinkRoundTrip cfg ("echo_core".toList) ∧
    sinkRoundTrip cfg ("sglang".toList) ∧ sinkRoundTrip cfg ("vllm".toList) ∧
    (cfg.mistralrs = true → sinkRoundTrip cfg ("mistralrs".toList)) ∧
    (cfg.llamacpp = true → sinkRoundTrip cfg ("llamacpp".toList)) := by
  obtain ⟨m, l, p⟩ := cfg
  cases m <;> cases l <;> cases p <;> decide

/-- Witness for C1's amended theorem at the all-features-enabled build. -/
theorem claim_C1_witness :
    Features.mistralrs ⟨true, true, true⟩ = true ∧
    Features.llamacpp ⟨true, true, true⟩ = true ∧
    sinkRoundTrip ⟨true, true, true⟩ ("mistralrs".toList) ∧
    sinkRoundTrip ⟨true, true, true⟩ ("llamacpp".toList) :=
  ⟨rfl, rfl,
   (claim_C1_theorem ⟨true, true, true⟩).2.2.2.2.2.2.2.1 rfl,
   (claim_C1_theorem ⟨true, true, true⟩).2.2.2.2.2.2.2.2 rfl⟩

/-- C2: on any token starting with the endpoint scheme token, the Source
Selector's Parse returns `Endpoint` carrying the full token verbatim, while
the Sink Selector's Parse returns `Endpoint` carrying the token with the
scheme dropped. -/
theorem claim_C2_theorem (cfg : Features) (s : Str)
    (h : startsWithTok s ENDPOINT_SCHEME = true) :
    Input.tryFrom s = some (Except.ok (Input.Endpoint s)) ∧
    Output.tryFrom cfg s
      = some (Except.ok (Output.Endpoint (s.drop (List.length ENDPOINT_SCHEME)))) :=
  ⟨input_tryFrom_scheme s h, output_tryFrom_scheme cfg s h⟩

/-- Witness for C2 at the spec's concrete token `"dyn://ns.comp.ep"`. -/
theorem claim_C2_witness :
    startsWithTok ("dyn://ns.comp.ep".toList) ENDPOINT_SCHEME = true ∧
    (Input.tryFrom ("dyn://ns.comp.ep".toList)
        = some (Except.ok (Input.Endpoint ("dyn://ns.comp.ep".toList))) ∧
     Output.tryFrom ⟨true, true, true⟩ ("dyn://ns.comp.ep".toList)
        = some (Except.ok (Output.Endpoint
            (("dyn://ns.comp.ep".toList).drop (List.length ENDPOINT_SCHEME))))) :=
  ⟨by decide, claim_C2_theorem ⟨true, true, true⟩ ("dyn://ns.comp.ep".toList) (by decide)⟩

/-- C3 fails as stated: the bare token `"dyn://"` (exactly the endpoint
scheme) is accepted by the Sink Selector's Parse, and the stored `Endpoint`
payload is the empty string. -/
theorem claim_C3_counterexample :
    ¬ (∀ (cfg : Features) (s a : Str),
        Output.tryFrom cfg s = some (Except.ok (Output.Endpoint a)) → a ≠ []) := by
  intro hclaim
  exact hclaim ⟨false, false, false⟩ ("dyn://".toList) [] (by decide) rfl

/-- C3 (amended): the Source Selector's `Endpoint` payload is never empty
(it retains the scheme); the Sink Selector's `Endpoint` payload is empty
exactly when the accepted token is the bare endpoint scheme, and non-empty
otherwise. -/
theorem claim_C3_theorem :
    (∀ s a : Str, Input.tryFrom s = some (Except.ok (Input.Endpoint a)) → a ≠ []) ∧
    (∀ (cfg : Features) (s a : Str),
      Output.tryFrom cfg s = some (Except.ok (Output.Endpoint a)) →
        (a = [] ↔ s = ENDPOINT_SCHEME)) := by
  constructor
  · intro s a h
    obtain ⟨rfl, hpre⟩ := input_tryFrom_endpoint_inv s a h
    obtain ⟨t, rfl⟩ := (startsWithTok_iff a ENDPOINT_SCHEME).mp hpre
    simp [ENDPOINT_SCHEME]
  · intro cfg s a h
    obtain ⟨rfl, hpre⟩ := output_tryFrom_endpoint_inv cfg s a h
    obtain ⟨t, rfl⟩ := (startsWithTok_iff s ENDPOINT_SCHEME).mp hpre
    rw [List.drop_left]
    constructor
    · rintro rfl
      simp
    · intro he
      have hl := congrArg List.length he
      simp at hl
      exact hl

/-- Witness for C3's amended theorem at the token `"dyn://ns"`. -/
theorem claim_C3_witness :
    ("dyn://ns".toList ≠ ([] : Str)) ∧
    (("ns".toList = ([] : Str)) ↔ ("dyn://ns".toList : Str) = ENDPOINT_SCHEME) :=
  ⟨claim_C3_theorem.1 ("dyn://ns".toList) ("dyn://ns".toList) (by decide),
   claim_C3_theorem.2 ⟨true, true, true⟩ ("dyn://ns".toList) ("ns".toList) (by decide)⟩

/-- C4: per selector, a token matching no documented literal and no prefix
of that selector's grammar makes that selector's Parse return the
`Invalid in=` / `Invalid out=` error, whose message contains the offending
token verbatim; there is no silent default.  Each conjunct carries only its
own selector's non-match hypotheses, so tokens of the other selector's
grammar (e.g. `"batch:p"` for the Sink Selector, `"vllm"` for the Source
Selector) are covered. -/
theorem claim_C4_theorem :
    (∀ s : Str, s ≠ "http".toList → s ≠ "text".toList → s ≠ "stdin".toList →
      startsWithTok s ENDPOINT_SCHEME = false →
      startsWithTok s BATCH_TOKEN = false →
      Input.tryFrom s = some (Except.error (invalidInMsg s)) ∧
        ∃ a b, invalidInMsg s = a ++ s ++ b) ∧
    (∀ (cfg : Features) (s : Str),
      ¬(cfg.mistralrs = true ∧ s = "mistralrs".toList) →
      ¬(cfg.llamacpp = true ∧ (s = "llamacpp".toList ∨ s = "llama_cpp".toList)) →
      s ≠ "sglang".toList → s ≠ "vllm".toList →
      s ≠ "echo_full".toList → s ≠ "echo_core".toList →
      startsWithTok s ENDPOINT_SCHEME = false →
      ¬(cfg.python = true ∧ startsWithTok s PYTHON_STR_SCHEME = true) →
      Output.tryFrom cfg s = some (Except.error (invalidOutMsg s)) ∧
        ∃ a b, invalidOutMsg s = a ++ s ++ b) :=
  ⟨fun s h1 h2 h3 h4 h5 =>
    ⟨input_tryFrom_invalid s h1 h2 h3 h4 h5,
     ⟨"Invalid in= option '".toList, "'".toList, rfl⟩⟩,
   fun cfg s h1 h2 h3 h4 h5 h6 h7 h8 =>
    ⟨output_tryFrom_invalid cfg s h1 h2 h3 h4 h5 h6 h7 h8,
     ⟨"Invalid out= option '".toList, "'".toList, rfl⟩⟩⟩

/-- Witness for C4 at the spec's token `"bogus"` on both selectors, and at
the cross-grammar tokens `"vllm"` (a sink literal fed to the Source
Selector) and `"http"` and `"batch:p"` (source tokens fed to the Sink
Selector). -/
theorem claim_C4_witness :
    (Input.tryFrom ("bogus".toList)
        = some (Except.error (invalidInMsg ("bogus".toList))) ∧
      ∃ a b, invalidInMsg ("bogus".toList) = a ++ "bogus".toList ++ b) ∧
    (Input.tryFrom ("vllm".toList)
        = some (Except.error (invalidInMsg ("vllm".toList))) ∧
      ∃ a b, invalidInMsg ("vllm".toList) = a ++ "vllm".toList ++ b) ∧
    (Output.tryFrom ⟨true, true, true⟩ ("bogus".toList)
        = some (Except.error (invalidOutMsg ("bogus".toList))) ∧
      ∃ a b, invalidOutMsg ("bogus".toList) = a ++ "bogus".toList ++ b) ∧
    (Output.tryFrom ⟨true, true, true⟩ ("http".toList)
        = some (Except.error (invalidOutMsg ("http".toList))) ∧
      ∃ a b, invalidOutMsg ("http".toList) = a ++ "http".toList ++ b) ∧
    (Output.tryFrom ⟨true, true, true⟩ ("batch:p".toList)
        = some (Except.error (invalidOutMsg ("batch:p".toList))) ∧
      ∃ a b, invalidOutMsg ("batch:p".toList) = a ++ "batch:p".toList ++ b) :=
  ⟨claim_C4_theorem.1 ("bogus".toList)
     (by decide) (by decide) (by decide) (by decide) (by decide),
   claim_C4_theorem.1 ("vllm".toList)
     (by decide) (by decide) (by decide) (by decide) (by decide),
   claim_C4_theorem.2 ⟨true, true, true⟩ ("bogus".toList)
     (by decide) (by decide) (by decide) (by decide) (by decide) (by decide)
     (by decide) (by decide),
   claim_C4_theorem.2 ⟨true, true, true⟩ ("http".toList)
     (by decide) (by decide) (by decide) (by decide) (by decide) (by decide)
     (by decide) (by decide),
   claim_C4_theorem.2 ⟨true, true, true⟩ ("batch:p".toList)
     (by decide) (by decide) (by decide) (by decide) (by decide) (by decide)
     (by decide) (by decide)⟩

/-- C5 fails as stated: with the `llamacpp` feature enabled, the Sink
Selector's Parse accepts the non-parameterized literal `"llama_cpp"`, yet
that literal does not appear in `available_engines` at all. -/
theorem claim_C5_counterexample :
    Output.tryFrom ⟨false, true, false⟩ ("llama_cpp".toList)
      = some (Except.ok Output.LlamaCpp) ∧
    "llama_cpp".toList ∉ Output.available_engines ⟨false, true, false⟩ := by
  decide

/-- C5 (amended): `available_engines` has no duplicates; every entry except
the scripted-backend placeholder `"pystr"` is accepted by Parse and
round-trips; and every non-parameterized literal Parse accepts, except the
alias `"llama_cpp"` (a second spelling of the llamacpp backend that never
appears in the enumeration), appears in `available_engines` exactly once. -/
theorem claim_C5_theorem (cfg : Features) :
    (Output.available_engines cfg).Nodup ∧
    (∀ e ∈ Output.available_engines cfg, e ≠ "pystr".toList → sinkRoundTrip cfg e) ∧
    ((Output.available_engines cfg).count ("echo_full".toList) = 1) ∧
    ((Output.available_engines cfg).count ("echo_core".toList) = 1) ∧
    ((Output.available_engines cfg).count ("sglang".toList) = 1) ∧
    ((Output.available_engines cfg).count ("vllm".toList) = 1) ∧
    (cfg.mistralrs = true →
      (Output.available_engines cfg).count ("mistralrs".toList) = 1) ∧
    (cfg.llamacpp = true →
      (Output.available_engines cfg).count ("llamacpp".toList) = 1) := by
  obtain ⟨m, l, p⟩ := cfg
  cases m <;> cases l <;> cases p <;> decide

/-- Witness for C5's amended theorem at the all-features-enabled build. -/
theorem claim_C5_witness :
    sinkRoundTrip ⟨true, true, true⟩ ("echo_core".toList) ∧
    (Output.available_engines ⟨true, true, true⟩).count ("mistralrs".toList) = 1 ∧
    (Output.available_engines ⟨true, true, true⟩).count ("llamacpp".toList) = 1 :=
  ⟨(claim_C5_theorem ⟨true, true, true⟩).2.1 ("echo_core".toList) (by decide) (by decide),
   (claim_C5_theorem ⟨true, true, true⟩).2.2.2.2.2.2.1 rfl,
   (claim_C5_theorem ⟨true, true, true⟩).2.2.2.2.2.2.2 rfl⟩

/-- C6: for every string `p`, the Source Selector's Parse on the
concatenation `"batch:" ++ p` succeeds with `Batch(p)` — the stored path is
exactly the remainder after the prefix, and the (pure, total) parse
performs no filesystem check. -/
theorem claim_C6_theorem (p : Str) :
    Input.tryFrom (BATCH_TOKEN ++ p) = some (Except.ok (Input.Batch p)) := by
  simp [Input.tryFrom, stripPrefixOpt, ENDPOINT_SCHEME, BATCH_TOKEN, String.toList,
    startsWithTok, List.drop_left]

/-- C7: the Source Selector's Default, with the terminal-attachment signal
as a boolean, is `Text` (interactive chat) when stdin is a terminal and
`Stdin` otherwise. -/
theorem claim_C7_theorem :
    Input.defaultMode true = Input.Text ∧ Input.defaultMode false = Input.Stdin := by
  decide

/-- C8: the Sink Selector's Default, as a function of the capability set
alone, is `MistralRs` whenever the `mistralrs` feature is compiled in and
`Vllm` otherwise; it depends on nothing but the `mistralrs` flag. -/
theorem claim_C8_theorem :
    (∀ cfg : Features, cfg.mistralrs = true → Output.defaultMode cfg = Output.MistralRs) ∧
    (∀ cfg : Features, cfg.mistralrs = false → Output.defaultMode cfg = Output.Vllm) ∧
    (∀ cfg cfg' : Features, cfg.mistralrs = cfg'.mistralrs →
      Output.defaultMode cfg = Output.defaultMode cfg') := by
  refine ⟨?_, ?_, ?_⟩
  · intro cfg h
    simp [Output.defaultMode, h]
  · intro cfg h
    simp [Output.defaultMode, h]
  · intro cfg cfg' h
    simp [Output.defaultMode, h]

/-- Witness for C8 at the two relevant capability sets. -/
theorem claim_C8_witness :
    Output.defaultMode ⟨true, false, false⟩ = Output.MistralRs ∧
    Output.defaultMode ⟨false, true, true⟩ = Output.Vllm :=
  ⟨claim_C8_theorem.1 ⟨true, false, false⟩ rfl,
   claim_C8_theorem.2.1 ⟨false, true, true⟩ rfl⟩

/-- C9: a scheme-prefixed token round-trips through the Source Selector —
rendering the parsed `Endpoint` gives the token back, and re-parsing the
rendered string reproduces the same variant — while the Sink Selector's
`Endpoint` and the Source Selector's `Batch` render to strings that have
lost their prefix, hence differ from the original token. -/
theorem claim_C9_theorem (cfg : Features) (s p : Str)
    (h : startsWithTok s ENDPOINT_SCHEME = true) :
    Input.tryFrom s = some (Except.ok (Input.Endpoint s)) ∧
    Input.render (Input.Endpoint s) = s ∧
    Input.tryFrom (Input.render (Input.Endpoint s))
      = some (Except.ok (Input.Endpoint s)) ∧
    Output.tryFrom cfg s
      = some (Except.ok (Output.Endpoint (s.drop (List.length ENDPOINT_SCHEME)))) ∧
    Output.render (Output.Endpoint (s.drop (List.length ENDPOINT_SCHEME))) ≠ s ∧
    Input.render (Input.Batch p) ≠ BATCH_TOKEN ++ p := by
  obtain ⟨t, rfl⟩ := (startsWithTok_iff s ENDPOINT_SCHEME).mp h
  refine ⟨input_tryFrom_scheme _ h, rfl, input_tryFrom_scheme _ h,
    output_tryFrom_scheme cfg _ h, ?_, ?_⟩
  · have hd : (ENDPOINT_SCHEME ++ t).drop (List.length ENDPOINT_SCHEME) = t :=
      List.drop_left _ _
    simp only [Output.render, hd]
    intro he
    have hl := congrArg List.length he
    simp [ENDPOINT_SCHEME] at hl
    omega
  · simp only [Input.render]
    intro he
    have hl := congrArg List.length he
    simp [BATCH_TOKEN] at hl
    omega

/-- Witness for C9 at the spec's concrete token `"dyn://ns.comp.ep"` and
the batch path `"/tmp/prompts.txt"`. -/
theorem claim_C9_witness :
    startsWithTok ("dyn://ns.comp.ep".toList) ENDPOINT_SCHEME = true ∧
    (Input.tryFrom ("dyn://ns.comp.ep".toList)
        = some (Except.ok (Input.Endpoint ("dyn://ns.comp.ep".toList))) ∧
     Input.render (Input.Endpoint ("dyn://ns.comp.ep".toList)) = "dyn://ns.comp.ep".toList ∧
     Input.tryFrom (Input.render (Input.Endpoint ("dyn://ns.comp.ep".toList)))
        = some (Except.ok (Input.Endpoint ("dyn://ns.comp.ep".toList))) ∧
     Output.tryFrom ⟨true, true, true⟩ ("dyn://ns.comp.ep".toList)
        = some (Except.ok (Output.Endpoint
            (("dyn://ns.comp.ep".toList).drop (List.length ENDPOINT_SCHEME)))) ∧
     Output.render (Output.Endpoint
        (("dyn://ns.comp.ep".toList).drop (List.length ENDPOINT_SCHEME)))
        ≠ "dyn://ns.comp.ep".toList ∧
     Input.render (Input.Batch ("/tmp/prompts.txt".toList))
        ≠ BATCH_TOKEN ++ "/tmp/prompts.txt".toList) :=
  ⟨by decide,
   claim_C9_theorem ⟨true, true, true⟩ ("dyn://ns.comp.ep".toList)
     ("/tmp/prompts.txt".toList) (by decide)⟩

/-- C10: both selectors' parse functions are total and cannot panic: every
input string yields `some` result, the `none` outcome that would mark a
reachable `.unwrap()` panic being impossible because each `strip_prefix`
call sits under a `starts_with` guard on the same prefix. -/
theorem claim_C10_theorem :
    (∀ s : Str, (Input.tryFrom s).isSome = true) ∧
    (∀ (cfg : Features) (s : Str), (Output.tryFrom cfg s).isSome = true) := by
  constructor
  · intro s
    unfold Input.tryFrom
    split_ifs with h1 h2 h3 h4 h5
    · simp
    · simp
    · simp
    · simp
    · simp [stripPrefixOpt, h5]
    · simp
  · intro cfg s
    unfold Output.tryFrom
    split_ifs with h1 h2 h3 h4 h5 h6 h7 h8
    · simp
    · simp
    · simp
    · simp
    · simp
    · simp
    · simp [stripPrefixOpt, h7]
    · simp [stripPrefixOpt, h8.2]
    · simp
